import Mathlib

/-!
Verification of the SABR smile interpolation of
`ql/math/interpolations/sabrinterpolation.hpp`.

C++ `Real` values are modelled over `ℝ`.  The external collaborators of the
file — the closed-form `sabrVolatility`, the Black vega derivative
`blackFormulaStdDevDerivative`, and the optimization method behind
`OptimizationMethod::minimize` — are abstract function parameters, since the
source file only consumes them through their interfaces.  The external
`validateSabrParameters` check is modelled from the spec.  `Null<Real>`
arguments are modelled by `Option ℝ`, and `QL_REQUIRE` failures by
`Except String`.
-/

namespace QLSabr

set_option genSizeOf false in
set_option genSizeOfSpec false in
/-- `EndCriteria::Type`, the optimizer's termination-reason enumeration. -/
inductive EndCriteriaType where
  | none
  | maxIterations
  | stationaryPoint
  | stationaryFunctionValue
  | stationaryFunctionAccuracy
  | zeroGradientNorm
  | unknown

/-- A length-4 `Array` carrying (alpha, beta, nu, rho) or its unconstrained
image, as a nested pair; the four components are `.1`, `.2.1`, `.2.2.1` and
`.2.2.2`. -/
abbrev Vec4 : Type := ℝ × ℝ × ℝ × ℝ

namespace SabrParametersTransformation

/-- `eps1_` set in `SabrParametersTransformation`'s constructor. -/
def eps1 : ℝ := 0.0000001

/-- `eps2_` set in `SabrParametersTransformation`'s constructor. -/
def eps2 : ℝ := 0.9999

/-- `SabrParametersTransformation::direct` (sabrinterpolation.hpp:283-290). -/
noncomputable def direct (x : Vec4) : Vec4 :=
  (x.1 * x.1 + eps1, Real.exp (-(x.2.1 * x.2.1)), x.2.2.1 * x.2.2.1 + eps1,
    eps2 * Real.sin x.2.2.2)

/-- `SabrParametersTransformation::inverse` (sabrinterpolation.hpp:292-300). -/
noncomputable def inverse (x : Vec4) : Vec4 :=
  (Real.sqrt (x.1 - eps1), Real.sqrt (-Real.log x.2.1), Real.sqrt (x.2.2.1 - eps1),
    Real.arcsin (x.2.2.2 / eps2))

end SabrParametersTransformation

/-- Modelled from the spec: the external check
`validateSabrParameters(alpha, beta, nu, rho)` (declared in
`ql/termstructures/volatility/sabr.hpp`, which is not among the analysed
sources) fails unless the spec's data-model constraints hold:
alpha > 0, beta ∈ [0,1], nu ≥ 0, rho ∈ (−1,1). -/
def validateSabrParameters (alpha beta nu rho : ℝ) : Prop :=
  0 < alpha ∧ (0 ≤ beta ∧ beta ≤ 1) ∧ 0 ≤ nu ∧ (-1 < rho ∧ rho < 1)

noncomputable instance (a b n r : ℝ) : Decidable (validateSabrParameters a b n r) := by
  delta validateSabrParameters
  infer_instance

set_option genSizeOf false in
set_option genSizeOfSpec false in
set_option genInjectivity false in
/-- The joint state of `detail::SABRInterpolationImpl`.  The C++ class
multiple-inherits `SABRCoeffHolder` (expiry, parameters, fixed flags,
weights, error results) and `Interpolation::templateImpl` (the strike/vol
data), so the state is one merged record here.  The `forward_` reference is
not stored: it is externally owned and re-read on every call, so operations
take the current forward as an argument instead. -/
structure SABRState where
  t : ℝ
  alpha : ℝ
  beta : ℝ
  nu : ℝ
  rho : ℝ
  alphaIsFixed : Bool
  betaIsFixed : Bool
  nuIsFixed : Bool
  rhoIsFixed : Bool
  weights : List ℝ
  error : Option ℝ
  maxError : Option ℝ
  SABREndCriteria : EndCriteriaType
  xs : List ℝ
  ys : List ℝ
  vegaWeighted : Bool

/-- `SABRCoeffHolder::SABRCoeffHolder` (sabrinterpolation.hpp:49-85).
A `Null<Real>` argument is `Option.none`.  The fixed flags start `false` and
are only taken from the caller when the matching parameter is supplied.  The
data members `xs`, `ys`, `vegaWeighted` belong to the derived implementation
and are passed through untouched. -/
noncomputable def mkSABRCoeffHolder (t : ℝ) (alpha? beta? nu? rho? : Option ℝ)
    (alphaIsFixed betaIsFixed nuIsFixed rhoIsFixed : Bool)
    (xs ys : List ℝ) (vegaWeighted : Bool) : Except String SABRState :=
  if 0 < t then
    if validateSabrParameters (alpha?.getD (Real.sqrt 0.2)) (beta?.getD 0.5)
        (nu?.getD (Real.sqrt 0.4)) (rho?.getD 0) then
      Except.ok
        { t := t
          alpha := alpha?.getD (Real.sqrt 0.2)
          beta := beta?.getD 0.5
          nu := nu?.getD (Real.sqrt 0.4)
          rho := rho?.getD 0
          alphaIsFixed := if alpha?.isSome then alphaIsFixed else false
          betaIsFixed := if beta?.isSome then betaIsFixed else false
          nuIsFixed := if nu?.isSome then nuIsFixed else false
          rhoIsFixed := if rho?.isSome then rhoIsFixed else false
          weights := []
          error := Option.none
          maxError := Option.none
          SABREndCriteria := EndCriteriaType.none
          xs := xs
          ys := ys
          vegaWeighted := vegaWeighted }
    else Except.error "invalid SABR parameters"
  else Except.error "expiry time must be positive"

/-- `SABRInterpolationImpl::SABRInterpolationImpl` (sabrinterpolation.hpp:
105-136): run the coefficient-holder initialisation, then set uniform
weights `1/n`.  The optimizer/end-criteria defaulting is outside the model
since the optimizer is abstract here. -/
noncomputable def mkSABRInterpolationImpl (xs ys : List ℝ) (t : ℝ)
    (alpha? beta? nu? rho? : Option ℝ)
    (alphaIsFixed betaIsFixed nuIsFixed rhoIsFixed vegaWeighted : Bool) :
    Except String SABRState :=
  (mkSABRCoeffHolder t alpha? beta? nu? rho?
      alphaIsFixed betaIsFixed nuIsFixed rhoIsFixed xs ys vegaWeighted).map fun h =>
    { h with weights := List.replicate xs.length ((1 : ℝ) / (xs.length : ℝ)) }

/-- The expression body of `SABRInterpolationImpl::value`: the external
closed-form `sabrVolatility` at the stored parameters, expiry and the current
forward. -/
noncomputable def valueRaw (sabrVol : ℝ → ℝ → ℝ → ℝ → ℝ → ℝ → ℝ → ℝ)
    (s : SABRState) (forward x : ℝ) : ℝ :=
  sabrVol x forward s.t s.alpha s.beta s.nu s.rho

/-- `SABRInterpolationImpl::value` (sabrinterpolation.hpp:215-220). -/
noncomputable def value (sabrVol : ℝ → ℝ → ℝ → ℝ → ℝ → ℝ → ℝ → ℝ)
    (s : SABRState) (forward x : ℝ) : Except String ℝ :=
  if 0 < x then Except.ok (valueRaw sabrVol s forward x)
  else Except.error "strike must be positive"

/-- `SABRInterpolationImpl::interpolationSquaredError` (sabrinterpolation.
hpp:231-241): the loop walks strikes, vols and weights together, here as a
fold over their zip, accumulating `(value(x) − y)² · w`. -/
noncomputable def interpolationSquaredError (sabrVol : ℝ → ℝ → ℝ → ℝ → ℝ → ℝ → ℝ → ℝ)
    (s : SABRState) (forward : ℝ) : ℝ :=
  (s.xs.zip (s.ys.zip s.weights)).foldl
    (fun acc p => acc + (valueRaw sabrVol s forward p.1 - p.2.1) *
      (valueRaw sabrVol s forward p.1 - p.2.1) * p.2.2) 0

/-- `SABRInterpolationImpl::interpolationErrors` (sabrinterpolation.hpp:
243-253), building `(value(x) − y)·sqrt(w)` per point; its unused `Array`
argument is omitted. -/
noncomputable def interpolationErrors (sabrVol : ℝ → ℝ → ℝ → ℝ → ℝ → ℝ → ℝ → ℝ)
    (s : SABRState) (forward : ℝ) : List ℝ :=
  (s.xs.zip (s.ys.zip s.weights)).map
    (fun p => (valueRaw sabrVol s forward p.1 - p.2.1) * Real.sqrt p.2.2)

/-- `SABRInterpolationImpl::interpolationError` (sabrinterpolation.hpp:
255-259): `sqrt(n*squaredError/(n-1))` with `n-1` computed on the unsigned
`Size` type (truncated subtraction for the n ≥ 1 cases this is called on). -/
noncomputable def interpolationError (sabrVol : ℝ → ℝ → ℝ → ℝ → ℝ → ℝ → ℝ → ℝ)
    (s : SABRState) (forward : ℝ) : ℝ :=
  Real.sqrt ((s.xs.length : ℝ) * interpolationSquaredError sabrVol s forward /
    ((s.xs.length - 1 : ℕ) : ℝ))

/-- `QL_MIN_REAL`, the negated largest double, seeding the max-error fold. -/
def QL_MIN_REAL : ℝ := -(1.7976931348623157 * 10 ^ 308)

/-- `SABRInterpolationImpl::interpolationMaxError` (sabrinterpolation.hpp:
261-270). -/
noncomputable def interpolationMaxError (sabrVol : ℝ → ℝ → ℝ → ℝ → ℝ → ℝ → ℝ → ℝ)
    (s : SABRState) (forward : ℝ) : ℝ :=
  (s.xs.zip s.ys).foldl
    (fun acc p => max acc |valueRaw sabrVol s forward p.1 - p.2|) QL_MIN_REAL

/-- Writing a full (alpha, beta, nu, rho) vector back into the shared state,
as the cost function and the tail of `update()` both do. -/
def setParams (s : SABRState) (p : Vec4) : SABRState :=
  { s with alpha := p.1, beta := p.2.1, nu := p.2.2.1, rho := p.2.2.2 }

namespace SABRError

/-- `SABRError::value` (sabrinterpolation.hpp:308-315): map the unconstrained
vector through `direct`, write the parameters into the shared state (the
deliberate side effect, returned here as the first component), and return the
squared error. -/
noncomputable def value (sabrVol : ℝ → ℝ → ℝ → ℝ → ℝ → ℝ → ℝ → ℝ)
    (s : SABRState) (forward : ℝ) (x : Vec4) : SABRState × ℝ :=
  (setParams s (SabrParametersTransformation.direct x),
    interpolationSquaredError sabrVol
      (setParams s (SabrParametersTransformation.direct x)) forward)

/-- `SABRError::values` (sabrinterpolation.hpp:317-324). -/
noncomputable def values (sabrVol : ℝ → ℝ → ℝ → ℝ → ℝ → ℝ → ℝ → ℝ)
    (s : SABRState) (forward : ℝ) (x : Vec4) : SABRState × List ℝ :=
  (setParams s (SabrParametersTransformation.direct x),
    interpolationErrors sabrVol
      (setParams s (SabrParametersTransformation.direct x)) forward)

end SABRError

/-- `ProjectedCostFunction::project`: keep only the components whose fixed
flag is off, in order. -/
def projectVec (g : Vec4) (fa fb fn fr : Bool) : List ℝ :=
  (if fa then [] else [g.1]) ++ (if fb then [] else [g.2.1]) ++
  (if fn then [] else [g.2.2.1]) ++ (if fr then [] else [g.2.2.2])

/-- `ProjectedCostFunction::include`: rebuild a full vector, taking fixed
components from the captured guess `g` and free ones from the projected
vector in order. -/
def includeVec (g : Vec4) (fa fb fn fr : Bool) (p : List ℝ) : Vec4 :=
  let s0 := if fa then (g.1, p) else (p.headD g.1, p.tail)
  let s1 := if fb then (g.2.1, s0.2) else (s0.2.headD g.2.1, s0.2.tail)
  let s2 := if fn then (g.2.2.1, s1.2) else (s1.2.headD g.2.2.1, s1.2.tail)
  (s0.1, s1.1, s2.1, if fr then g.2.2.2 else s2.2.headD g.2.2.2)

/-- The vega list built by the re-weighting loop of `update()`
(sabrinterpolation.hpp:146-157): for each point, the Black std-dev derivative
at its strike, the current forward and std-dev `sqrt(y*y*t)`. -/
noncomputable def rawVegaWeights (vega : ℝ → ℝ → ℝ → ℝ) (s : SABRState)
    (forward : ℝ) : List ℝ :=
  List.zipWith (fun x y => vega x forward (Real.sqrt (y * y * s.t))) s.xs s.ys

/-- The normalised vega weights (sabrinterpolation.hpp:158-161): each raw
weight divided by their sum. -/
noncomputable def vegaWeights (vega : ℝ → ℝ → ℝ → ℝ) (s : SABRState)
    (forward : ℝ) : List ℝ :=
  (rawVegaWeights vega s forward).map (fun w => w / (rawVegaWeights vega s forward).sum)

/-- The weight-update step at the top of `update()`: recompute vega weights
from the current forward when `vegaWeighted_`, else leave the weights. -/
noncomputable def reweight (vega : ℝ → ℝ → ℝ → ℝ) (s : SABRState)
    (forward : ℝ) : SABRState :=
  if s.vegaWeighted then { s with weights := vegaWeights vega s forward } else s

/-- The rest of `update()` after the weight update (sabrinterpolation.hpp:
164-212): either the all-fixed trivial branch, or inverse-transform the
current guess, project away fixed components, run the abstract minimizer on
the projected cost function, re-expand, map through `direct` and store.  Both
branches end by recomputing `error_` and `maxError_`. -/
noncomputable def calibrate (sabrVol : ℝ → ℝ → ℝ → ℝ → ℝ → ℝ → ℝ → ℝ)
    (minimize : (List ℝ → ℝ) → List ℝ → List ℝ × EndCriteriaType)
    (s1 : SABRState) (forward : ℝ) : SABRState :=
  if s1.alphaIsFixed && s1.betaIsFixed && s1.nuIsFixed && s1.rhoIsFixed then
    { s1 with error := some (interpolationError sabrVol s1 forward)
              maxError := some (interpolationMaxError sabrVol s1 forward)
              SABREndCriteria := EndCriteriaType.none }
  else
    let ig := SabrParametersTransformation.inverse (s1.alpha, s1.beta, s1.nu, s1.rho)
    let pg := projectVec ig s1.alphaIsFixed s1.betaIsFixed s1.nuIsFixed s1.rhoIsFixed
    let cost := fun p : List ℝ =>
      (SABRError.value sabrVol s1 forward
        (includeVec ig s1.alphaIsFixed s1.betaIsFixed s1.nuIsFixed s1.rhoIsFixed p)).2
    let res := minimize cost pg
    let result := SabrParametersTransformation.direct
      (includeVec ig s1.alphaIsFixed s1.betaIsFixed s1.nuIsFixed s1.rhoIsFixed res.1)
    let s2 := { s1 with alpha := result.1, beta := result.2.1, nu := result.2.2.1,
                        rho := result.2.2.2, SABREndCriteria := res.2 }
    { s2 with error := some (interpolationError sabrVol s2 forward)
              maxError := some (interpolationMaxError sabrVol s2 forward) }

/-- `SABRInterpolationImpl::update` (sabrinterpolation.hpp:138-213): require
a positive current forward, recompute vega weights, then calibrate. -/
noncomputable def update (sabrVol : ℝ → ℝ → ℝ → ℝ → ℝ → ℝ → ℝ → ℝ)
    (vega : ℝ → ℝ → ℝ → ℝ)
    (minimize : (List ℝ → ℝ) → List ℝ → List ℝ × EndCriteriaType)
    (s : SABRState) (forward : ℝ) : Except String SABRState :=
  if 0 < forward then
    Except.ok (calibrate sabrVol minimize (reweight vega s forward) forward)
  else Except.error "forward must be positive"

/-- A concrete valid all-fixed two-point state used to instantiate the
update and error theorems. -/
noncomputable def w2state : SABRState :=
  { t := 1, alpha := 1, beta := 0.5, nu := 1, rho := 0
    alphaIsFixed := true, betaIsFixed := true, nuIsFixed := true
    rhoIsFixed := true
    weights := [0.5, 0.5], error := Option.none, maxError := Option.none
    SABREndCriteria := EndCriteriaType.none
    xs := [1, 2], ys := [0, 0], vegaWeighted := false }

/-- A concrete vega-weighted all-fixed single-point state. -/
noncomputable def w7state : SABRState :=
  { t := 1, alpha := 1, beta := 0.5, nu := 1, rho := 0
    alphaIsFixed := true, betaIsFixed := true, nuIsFixed := true
    rhoIsFixed := true
    weights := [1], error := Option.none, maxError := Option.none
    SABREndCriteria := EndCriteriaType.none
    xs := [1], ys := [1], vegaWeighted := true }

/-- The state produced by the constructor from strikes [1], vols [1], t = 1,
initial guess (1, 0, 1, 0) and all four parameters fixed. -/
noncomputable def cexState : SABRState :=
  { t := 1, alpha := 1, beta := 0, nu := 1, rho := 0
    alphaIsFixed := true, betaIsFixed := true, nuIsFixed := true
    rhoIsFixed := true
    weights := [1], error := Option.none, maxError := Option.none
    SABREndCriteria := EndCriteriaType.none
    xs := [1], ys := [1], vegaWeighted := false }

/-- The state built by the coefficient-holder initialisation from all-Null
parameters at t = 1 with empty data. -/
noncomputable def defaultHolder : SABRState :=
  { t := 1, alpha := Real.sqrt 0.2, beta := 0.5, nu := Real.sqrt 0.4, rho := 0
    alphaIsFixed := false, betaIsFixed := false, nuIsFixed := false
    rhoIsFixed := false
    weights := [], error := Option.none, maxError := Option.none
    SABREndCriteria := EndCriteriaType.none
    xs := [], ys := [], vegaWeighted := false }

/-! ### Theorems -/

open SabrParametersTransformation

/-- Re-weighting never changes the parameters, fixed flags, expiry or data. -/
theorem reweight_fields (vega : ℝ → ℝ → ℝ → ℝ) (s : SABRState) (forward : ℝ) :
    (reweight vega s forward).alpha = s.alpha ∧
    (reweight vega s forward).beta = s.beta ∧
    (reweight vega s forward).nu = s.nu ∧
    (reweight vega s forward).rho = s.rho ∧
    (reweight vega s forward).alphaIsFixed = s.alphaIsFixed ∧
    (reweight vega s forward).betaIsFixed = s.betaIsFixed ∧
    (reweight vega s forward).nuIsFixed = s.nuIsFixed ∧
    (reweight vega s forward).rhoIsFixed = s.rhoIsFixed ∧
    (reweight vega s forward).t = s.t ∧
    (reweight vega s forward).xs = s.xs ∧
    (reweight vega s forward).ys = s.ys := by
  delta reweight
  split <;> exact ⟨rfl, rfl, rfl, rfl, rfl, rfl, rfl, rfl, rfl, rfl, rfl⟩

/-- Folding `acc + g p` over a list totals the mapped sum on top of the
accumulator. -/
theorem foldl_add_sum (g : ℝ × ℝ × ℝ → ℝ) (l : List (ℝ × ℝ × ℝ)) :
    ∀ acc : ℝ, l.foldl (fun a p => a + g p) acc = acc + (l.map g).sum := by
  induction l with
  | nil => intro acc; simp
  | cons p l ih => intro acc; simp [ih, add_assoc]

/-- Entry i of a map over the zipped strike/vol/weight lists. -/
theorem zip_map_getD (g : ℝ × ℝ × ℝ → ℝ) (xs : List ℝ) :
    ∀ (ys ws : List ℝ) (i : ℕ), ys.length = xs.length → ws.length = xs.length →
      i < xs.length →
      ((xs.zip (ys.zip ws)).map g).getD i 0 =
        g (xs.getD i 0, ys.getD i 0, ws.getD i 0) := by
  induction xs with
  | nil => intro ys ws i _ _ hi; simp at hi
  | cons x xs ih =>
    intro ys ws i hy hw hi
    cases ys with
    | nil => simp at hy
    | cons y ys =>
      cases ws with
      | nil => simp at hw
      | cons w ws =>
        simp only [List.length_cons, add_left_inj] at hy hw
        cases i with
        | zero => rfl
        | succ i =>
          simp only [List.zip_cons_cons, List.map_cons, List.getD_cons_succ]
          exact ih ys ws i hy hw (by simp only [List.length_cons] at hi; omega)

/-- Claim C2: for every 4-vector strictly inside the open constrained domain
(alpha > eps1, 0 < beta ≤ 1, nu > eps1, −eps2 < rho < eps2), the parameter
transformation satisfies `direct (inverse x) = x`. -/
theorem c2_direct_inverse_id (x : Vec4)
    (h0 : eps1 < x.1) (h1 : 0 < x.2.1) (h1le : x.2.1 ≤ 1)
    (h2 : eps1 < x.2.2.1) (h3 : -eps2 < x.2.2.2) (h3lt : x.2.2.2 < eps2) :
    direct (inverse x) = x := by
  have heps2 : (0 : ℝ) < eps2 := by delta eps2; norm_num
  obtain ⟨x0, x1, x2, x3⟩ := x
  dsimp only at h0 h1 h1le h2 h3 h3lt
  delta direct inverse
  dsimp only
  simp only [Prod.mk.injEq]
  refine ⟨?_, ?_, ?_, ?_⟩
  · rw [Real.mul_self_sqrt (by linarith)]
    ring
  · rw [Real.mul_self_sqrt (neg_nonneg.mpr (Real.log_nonpos h1.le h1le)),
      neg_neg, Real.exp_log h1]
  · rw [Real.mul_self_sqrt (by linarith)]
    ring
  · rw [Real.sin_arcsin (by rw [le_div_iff₀ heps2]; linarith)
      ((div_le_one heps2).mpr h3lt.le)]
    rw [mul_comm, div_mul_cancel₀ _ (ne_of_gt heps2)]

/-- Claim C2 witness: the round trip at the concrete in-domain point
(1, 1/2, 1, 0). -/
theorem c2_witness :
    direct (inverse (1, 1 / 2, 1, 0)) = ((1 : ℝ), 1 / 2, 1, 0) :=
  c2_direct_inverse_id (1, 1 / 2, 1, 0)
    (by delta eps1; norm_num) (by norm_num) (by norm_num)
    (by delta eps1; norm_num) (by delta eps2; norm_num) (by delta eps2; norm_num)

/-- Claim C1 (amended): for every calibration run — any initial guess
accepted by the parameter validity check, any fixed-flag combination, any
optimizer — after `update()` the stored parameters satisfy alpha > 0,
0 ≤ beta ≤ 1, nu ≥ 0 and −1 < rho < 1.  (The strict lower bound 0 < beta of
the original claim fails: an all-fixed calibration keeps a valid beta = 0.) -/
theorem c1_update_domain (sabrVol : ℝ → ℝ → ℝ → ℝ → ℝ → ℝ → ℝ → ℝ)
    (vega : ℝ → ℝ → ℝ → ℝ)
    (minimize : (List ℝ → ℝ) → List ℝ → List ℝ × EndCriteriaType)
    (s : SABRState) (forward : ℝ) (s' : SABRState)
    (hvalid : validateSabrParameters s.alpha s.beta s.nu s.rho)
    (hupd : update sabrVol vega minimize s forward = Except.ok s') :
    0 < s'.alpha ∧ (0 ≤ s'.beta ∧ s'.beta ≤ 1) ∧ 0 ≤ s'.nu ∧
      (-1 < s'.rho ∧ s'.rho < 1) := by
  have hd : ∀ v : Vec4, 0 < (direct v).1 ∧ (0 < (direct v).2.1 ∧ (direct v).2.1 ≤ 1) ∧
      0 ≤ (direct v).2.2.1 ∧ (-1 < (direct v).2.2.2 ∧ (direct v).2.2.2 < 1) := by
    intro v
    have he1 : (0 : ℝ) < eps1 := by delta eps1; norm_num
    have he2a : (0 : ℝ) < eps2 := by delta eps2; norm_num
    have he2b : eps2 < 1 := by delta eps2; norm_num
    have hs1 := Real.sin_le_one v.2.2.2
    have hs2 := Real.neg_one_le_sin v.2.2.2
    have h0m := mul_self_nonneg v.1
    have h1m := mul_self_nonneg v.2.1
    have h2m := mul_self_nonneg v.2.2.1
    have hexp : Real.exp (-(v.2.1 * v.2.1)) ≤ 1 := by
      rw [show (1 : ℝ) = Real.exp 0 from Real.exp_zero.symm]
      exact Real.exp_le_exp.mpr (by linarith)
    delta direct
    dsimp only
    exact ⟨by linarith, ⟨Real.exp_pos _, hexp⟩, by linarith,
      by nlinarith, by nlinarith⟩
  obtain ⟨hra, hrb, hrn, hrr, -⟩ := reweight_fields vega s forward
  delta update at hupd
  split at hupd
  · rw [Except.ok.injEq] at hupd
    subst hupd
    delta calibrate
    split
    · obtain ⟨ha, ⟨hb0, hb1⟩, hn, hr1, hr2⟩ := hvalid
      dsimp only
      rw [hra, hrb, hrn, hrr]
      exact ⟨ha, ⟨hb0, hb1⟩, hn, hr1, hr2⟩
    · dsimp only
      exact ⟨(hd _).1, ⟨(hd _).2.1.1.le, (hd _).2.1.2⟩, (hd _).2.2.1,
        (hd _).2.2.2⟩
  · exact absurd hupd (by simp)

/-- Claim C1 counterexample: the constructor accepts an all-fixed initial
guess with beta = 0 (the validity check allows beta ∈ [0,1]), and the
all-fixed `update()` leaves beta = 0, violating the claimed strict bound
0 < beta. -/
theorem c1_counterexample :
    mkSABRInterpolationImpl [1] [1] 1 (some 1) (some 0) (some 1) (some 0)
      true true true true false = Except.ok cexState ∧
    ¬ (∀ s', update (fun _ _ _ _ _ _ _ => 0) (fun _ _ _ => 1)
          (fun _ p => (p, EndCriteriaType.maxIterations)) cexState 1 = Except.ok s' →
        0 < s'.beta) := by
  constructor
  · have hval : validateSabrParameters ((some (1 : ℝ)).getD (Real.sqrt 0.2))
        ((some (0 : ℝ)).getD 0.5) ((some (1 : ℝ)).getD (Real.sqrt 0.4))
        ((some (0 : ℝ)).getD 0) :=
      ⟨by norm_num, ⟨by norm_num, by norm_num⟩, by norm_num, by norm_num,
        by norm_num⟩
    delta mkSABRInterpolationImpl mkSABRCoeffHolder
    rw [if_pos (show (0 : ℝ) < 1 by norm_num), if_pos hval,
      show (1 : ℝ) / ((List.length [(1 : ℝ)] : ℕ) : ℝ) = 1 by norm_num]
    rfl
  · intro hall
    have h := hall (calibrate (fun _ _ _ _ _ _ _ => 0)
        (fun _ p => (p, EndCriteriaType.maxIterations))
        (reweight (fun _ _ _ => 1) cexState 1) 1)
      (by delta update; rw [if_pos (show (0 : ℝ) < 1 by norm_num)])
    have hbeta : (calibrate (fun _ _ _ _ _ _ _ => (0 : ℝ))
        (fun _ p => (p, EndCriteriaType.maxIterations))
        (reweight (fun _ _ _ => (1 : ℝ)) cexState 1) 1).beta = 0 := rfl
    rw [hbeta] at h
    exact absurd h (by norm_num)

/-- Claim C1 witness: the amended domain invariant evaluated after a concrete
`update()` call on the all-fixed valid state `w2state`. -/
theorem c1_witness :
    0 < (calibrate (fun _ _ _ _ _ _ _ => 0) (fun _ p => (p, EndCriteriaType.maxIterations))
        (reweight (fun _ _ _ => 1) w2state 1) 1).alpha ∧
    (0 ≤ (calibrate (fun _ _ _ _ _ _ _ => 0) (fun _ p => (p, EndCriteriaType.maxIterations))
        (reweight (fun _ _ _ => 1) w2state 1) 1).beta ∧
      (calibrate (fun _ _ _ _ _ _ _ => 0) (fun _ p => (p, EndCriteriaType.maxIterations))
        (reweight (fun _ _ _ => 1) w2state 1) 1).beta ≤ 1) ∧
    0 ≤ (calibrate (fun _ _ _ _ _ _ _ => 0) (fun _ p => (p, EndCriteriaType.maxIterations))
        (reweight (fun _ _ _ => 1) w2state 1) 1).nu ∧
    (-1 < (calibrate (fun _ _ _ _ _ _ _ => 0) (fun _ p => (p, EndCriteriaType.maxIterations))
        (reweight (fun _ _ _ => 1) w2state 1) 1).rho ∧
      (calibrate (fun _ _ _ _ _ _ _ => 0) (fun _ p => (p, EndCriteriaType.maxIterations))
        (reweight (fun _ _ _ => 1) w2state 1) 1).rho < 1) :=
  c1_update_domain (fun _ _ _ _ _ _ _ => 0) (fun _ _ _ => 1)
    (fun _ p => (p, EndCriteriaType.maxIterations)) w2state 1 _
    ⟨show (0 : ℝ) < 1 by norm_num,
      ⟨show (0 : ℝ) ≤ 0.5 by norm_num, show (0.5 : ℝ) ≤ 1 by norm_num⟩,
      show (0 : ℝ) ≤ 1 by norm_num,
      show (-1 : ℝ) < 0 by norm_num, show (0 : ℝ) < 1 by norm_num⟩
    (by delta update; rw [if_pos (show (0 : ℝ) < 1 by norm_num)])

/-- Claim C4: whenever all four parameters are fixed, `update()` does not
invoke the optimizer (any two optimizers give the same result), sets the
end-criteria reason to "none", leaves the parameters unchanged, and
recomputes error and maxError directly from the current fixed parameter
values against the smile data. -/
theorem c4_all_fixed_trivial (sabrVol : ℝ → ℝ → ℝ → ℝ → ℝ → ℝ → ℝ → ℝ)
    (vega : ℝ → ℝ → ℝ → ℝ)
    (minimize minimize2 : (List ℝ → ℝ) → List ℝ → List ℝ × EndCriteriaType)
    (s : SABRState) (forward : ℝ) (s' : SABRState)
    (ha : s.alphaIsFixed = true) (hb : s.betaIsFixed = true)
    (hn : s.nuIsFixed = true) (hr : s.rhoIsFixed = true)
    (hupd : update sabrVol vega minimize s forward = Except.ok s') :
    s'.SABREndCriteria = EndCriteriaType.none ∧
    s'.alpha = s.alpha ∧ s'.beta = s.beta ∧ s'.nu = s.nu ∧ s'.rho = s.rho ∧
    s'.error = some (interpolationError sabrVol (reweight vega s forward) forward) ∧
    s'.maxError = some (interpolationMaxError sabrVol (reweight vega s forward) forward) ∧
    update sabrVol vega minimize2 s forward = update sabrVol vega minimize s forward := by
  obtain ⟨hra, hrb, hrn, hrr, hfa, hfb, hfn, hfr, -⟩ := reweight_fields vega s forward
  have hfix : ((reweight vega s forward).alphaIsFixed &&
      (reweight vega s forward).betaIsFixed &&
      (reweight vega s forward).nuIsFixed &&
      (reweight vega s forward).rhoIsFixed) = true := by
    rw [hfa, hfb, hfn, hfr, ha, hb, hn, hr]
    rfl
  delta update at hupd ⊢
  split at hupd
  case isTrue hf =>
    rw [Except.ok.injEq] at hupd
    delta calibrate at hupd
    rw [if_pos hfix] at hupd
    subst hupd
    refine ⟨rfl, hra, hrb, hrn, hrr, rfl, rfl, ?_⟩
    rw [if_pos hf, if_pos hf]
    delta calibrate
    rw [if_pos hfix, if_pos hfix]
  case isFalse hf => exact absurd hupd (by simp)

/-- Claim C4 witness: the trivial path evaluated on the concrete all-fixed
state `w2state`, with two different stand-in optimizers. -/
theorem c4_witness :
    (calibrate (fun _ _ _ _ _ _ _ => 0) (fun _ p => (p, EndCriteriaType.maxIterations))
        (reweight (fun _ _ _ => 1) w2state 1) 1).SABREndCriteria =
      EndCriteriaType.none ∧
    (calibrate (fun _ _ _ _ _ _ _ => 0) (fun _ p => (p, EndCriteriaType.maxIterations))
        (reweight (fun _ _ _ => 1) w2state 1) 1).alpha = w2state.alpha ∧
    (calibrate (fun _ _ _ _ _ _ _ => 0) (fun _ p => (p, EndCriteriaType.maxIterations))
        (reweight (fun _ _ _ => 1) w2state 1) 1).beta = w2state.beta ∧
    (calibrate (fun _ _ _ _ _ _ _ => 0) (fun _ p => (p, EndCriteriaType.maxIterations))
        (reweight (fun _ _ _ => 1) w2state 1) 1).nu = w2state.nu ∧
    (calibrate (fun _ _ _ _ _ _ _ => 0) (fun _ p => (p, EndCriteriaType.maxIterations))
        (reweight (fun _ _ _ => 1) w2state 1) 1).rho = w2state.rho ∧
    (calibrate (fun _ _ _ _ _ _ _ => 0) (fun _ p => (p, EndCriteriaType.maxIterations))
        (reweight (fun _ _ _ => 1) w2state 1) 1).error =
      some (interpolationError (fun _ _ _ _ _ _ _ => 0)
        (reweight (fun _ _ _ => 1) w2state 1) 1) ∧
    (calibrate (fun _ _ _ _ _ _ _ => 0) (fun _ p => (p, EndCriteriaType.maxIterations))
        (reweight (fun _ _ _ => 1) w2state 1) 1).maxError =
      some (interpolationMaxError (fun _ _ _ _ _ _ _ => 0)
        (reweight (fun _ _ _ => 1) w2state 1) 1) ∧
    update (fun _ _ _ _ _ _ _ => 0) (fun _ _ _ => 1)
        (fun _ _ => ([], EndCriteriaType.unknown)) w2state 1 =
      update (fun _ _ _ _ _ _ _ => 0) (fun _ _ _ => 1)
        (fun _ p => (p, EndCriteriaType.maxIterations)) w2state 1 :=
  c4_all_fixed_trivial (fun _ _ _ _ _ _ _ => 0) (fun _ _ _ => 1)
    (fun _ p => (p, EndCriteriaType.maxIterations))
    (fun _ _ => ([], EndCriteriaType.unknown)) w2state 1 _ rfl rfl rfl rfl
    (by delta update; rw [if_pos (show (0 : ℝ) < 1 by norm_num)])

/-- Claim C7: with vega-weighting enabled, after every `update()` call on
nonempty data whose vegas are strictly positive, the stored weights are the
vega weights recomputed from the forward passed to that very call — for any
optimizer, so strictly before the optimizer runs — and they sum to 1. -/
theorem c7_weight_normalization (sabrVol : ℝ → ℝ → ℝ → ℝ → ℝ → ℝ → ℝ → ℝ)
    (vega : ℝ → ℝ → ℝ → ℝ)
    (minimize : (List ℝ → ℝ) → List ℝ → List ℝ × EndCriteriaType)
    (s : SABRState) (forward : ℝ) (s' : SABRState)
    (hvw : s.vegaWeighted = true)
    (hne : rawVegaWeights vega s forward ≠ [])
    (hpos : ∀ w ∈ rawVegaWeights vega s forward, 0 < w)
    (hupd : update sabrVol vega minimize s forward = Except.ok s') :
    s'.weights = vegaWeights vega s forward ∧ s'.weights.sum = 1 := by
  have hsum : 0 < (rawVegaWeights vega s forward).sum := List.sum_pos _ hpos hne
  have hdiv : ∀ (l : List ℝ) (c : ℝ), (l.map (fun w => w / c)).sum = l.sum / c := by
    intro l c
    induction l with
    | nil => simp
    | cons a l ih => simp [ih, add_div]
  have hcw : (calibrate sabrVol minimize (reweight vega s forward) forward).weights =
      (reweight vega s forward).weights := by
    delta calibrate
    split <;> rfl
  have hw : s'.weights = vegaWeights vega s forward := by
    delta update at hupd
    split at hupd
    · rw [Except.ok.injEq] at hupd
      subst hupd
      rw [hcw]
      delta reweight
      rw [if_pos hvw]
    · exact absurd hupd (by simp)
  refine ⟨hw, ?_⟩
  rw [hw]
  delta vegaWeights
  rw [hdiv, div_self hsum.ne']

/-- Claim C7 witness: weight recomputation and normalization evaluated after
a concrete vega-weighted `update()` call on `w7state`. -/
theorem c7_witness :
    (calibrate (fun _ _ _ _ _ _ _ => 0) (fun _ p => (p, EndCriteriaType.maxIterations))
        (reweight (fun _ _ _ => 1) w7state 1) 1).weights =
      vegaWeights (fun _ _ _ => 1) w7state 1 ∧
    (calibrate (fun _ _ _ _ _ _ _ => 0) (fun _ p => (p, EndCriteriaType.maxIterations))
        (reweight (fun _ _ _ => 1) w7state 1) 1).weights.sum = 1 :=
  c7_weight_normalization (fun _ _ _ _ _ _ _ => 0) (fun _ _ _ => 1)
    (fun _ p => (p, EndCriteriaType.maxIterations)) w7state 1 _ rfl
    (by
      rw [show rawVegaWeights (fun _ _ _ => (1 : ℝ)) w7state 1 = [1] from rfl]
      exact List.cons_ne_nil 1 [])
    (by
      intro w hw
      rw [show rawVegaWeights (fun _ _ _ => (1 : ℝ)) w7state 1 = [1] from rfl,
        List.mem_singleton] at hw
      subst hw
      norm_num)
    (by delta update; rw [if_pos (show (0 : ℝ) < 1 by norm_num)])

/-- Claim C8: `value(strike)` fails with an invalid-argument error exactly
when strike ≤ 0; for every strike > 0 it returns the external closed-form
SABR volatility at the currently stored (possibly uncalibrated) parameters,
the stored expiry and the current forward. -/
theorem c8_value_guard (sabrVol : ℝ → ℝ → ℝ → ℝ → ℝ → ℝ → ℝ → ℝ)
    (s : SABRState) (forward x : ℝ) :
    ((∃ e, value sabrVol s forward x = Except.error e) ↔ x ≤ 0) ∧
    (0 < x → value sabrVol s forward x =
      Except.ok (sabrVol x forward s.t s.alpha s.beta s.nu s.rho)) := by
  delta value valueRaw
  by_cases hx : 0 < x
  · rw [if_pos hx]
    refine ⟨⟨?_, ?_⟩, fun _ => rfl⟩
    · rintro ⟨e, he⟩
      exact absurd he (by simp)
    · intro hle
      exact absurd hx (not_lt.mpr hle)
  · rw [if_neg hx]
    exact ⟨⟨fun _ => not_lt.mp hx, fun _ => ⟨_, rfl⟩⟩, fun h => absurd h hx⟩

/-- Claim C8 witness: on the concrete state `w2state`, the strike 2 returns
the closed form (the zero stand-in volatility) and the strike −1 fails. -/
theorem c8_witness :
    value (fun _ _ _ _ _ _ _ => 0) w2state 1 2 = Except.ok 0 ∧
    (∃ e, value (fun _ _ _ _ _ _ _ => 0) w2state 1 (-1) = Except.error e) :=
  ⟨(c8_value_guard (fun _ _ _ _ _ _ _ => 0) w2state 1 2).2 (by norm_num),
   (c8_value_guard (fun _ _ _ _ _ _ _ => 0) w2state 1 (-1)).1.mpr (by norm_num)⟩

/-- Claim C5: for every data set and candidate parameter vector, the cost
function's scalar value is the weighted sum of squares
Σᵢ wᵢ·(modelVol(strikeᵢ) − marketVolᵢ)² at the parameters it writes back,
and its residual vector has i-th entry
(modelVol(strikeᵢ) − marketVolᵢ)·sqrt(wᵢ). -/
theorem c5_cost_function (sabrVol : ℝ → ℝ → ℝ → ℝ → ℝ → ℝ → ℝ → ℝ)
    (s : SABRState) (forward : ℝ) (x : Vec4)
    (hy : s.ys.length = s.xs.length) (hw : s.weights.length = s.xs.length) :
    (SABRError.value sabrVol s forward x).2 =
      ((s.xs.zip (s.ys.zip s.weights)).map (fun p =>
        p.2.2 * (valueRaw sabrVol (setParams s (direct x)) forward p.1 - p.2.1) ^ 2)).sum ∧
    ∀ i, i < s.xs.length →
      (SABRError.values sabrVol s forward x).2.getD i 0 =
        (valueRaw sabrVol (setParams s (direct x)) forward (s.xs.getD i 0) -
            s.ys.getD i 0) * Real.sqrt (s.weights.getD i 0) := by
  constructor
  · show interpolationSquaredError sabrVol (setParams s (direct x)) forward = _
    delta interpolationSquaredError
    rw [show (setParams s (direct x)).xs = s.xs from rfl,
      show (setParams s (direct x)).ys = s.ys from rfl,
      show (setParams s (direct x)).weights = s.weights from rfl,
      foldl_add_sum, zero_add]
    have hfun : (fun p : ℝ × ℝ × ℝ =>
        (valueRaw sabrVol (setParams s (direct x)) forward p.1 - p.2.1) *
          (valueRaw sabrVol (setParams s (direct x)) forward p.1 - p.2.1) * p.2.2) =
        fun p : ℝ × ℝ × ℝ =>
          p.2.2 * (valueRaw sabrVol (setParams s (direct x)) forward p.1 - p.2.1) ^ 2 := by
      funext p
      ring
    rw [hfun]
  · intro i hi
    show (interpolationErrors sabrVol (setParams s (direct x)) forward).getD i 0 = _
    delta interpolationErrors
    rw [show (setParams s (direct x)).xs = s.xs from rfl,
      show (setParams s (direct x)).ys = s.ys from rfl,
      show (setParams s (direct x)).weights = s.weights from rfl]
    exact zip_map_getD _ _ _ _ i hy hw hi

/-- Claim C5 witness: the cost formula and the 0-th residual entry evaluated
on the concrete state `w2state` at the candidate vector (0, 0, 0, 0). -/
theorem c5_witness :
    (SABRError.value (fun _ _ _ _ _ _ _ => 0) w2state 1 (0, 0, 0, 0)).2 =
      ((w2state.xs.zip (w2state.ys.zip w2state.weights)).map (fun p =>
        p.2.2 * (valueRaw (fun _ _ _ _ _ _ _ => 0)
          (setParams w2state (direct (0, 0, 0, 0))) 1 p.1 - p.2.1) ^ 2)).sum ∧
    (SABRError.values (fun _ _ _ _ _ _ _ => 0) w2state 1 (0, 0, 0, 0)).2.getD 0 0 =
      (valueRaw (fun _ _ _ _ _ _ _ => 0) (setParams w2state (direct (0, 0, 0, 0))) 1
          (w2state.xs.getD 0 0) - w2state.ys.getD 0 0) *
        Real.sqrt (w2state.weights.getD 0 0) := by
  have h := c5_cost_function (fun _ _ _ _ _ _ _ => 0) w2state 1 (0, 0, 0, 0) rfl rfl
  exact ⟨h.1, h.2 0 (Nat.succ_pos 1)⟩

/-- Claim C6: for every data set with n ≥ 2 points, the reported RMS
interpolation error equals sqrt(n·SSE/(n−1)) with SSE the weighted sum of
squares; n ≥ 2 keeps the denominator nonzero (the n = 1 division by zero of
the IEEE source has no counterpart over ℝ). -/
theorem c6_rms_error (sabrVol : ℝ → ℝ → ℝ → ℝ → ℝ → ℝ → ℝ → ℝ)
    (s : SABRState) (forward : ℝ)
    (_hy : s.ys.length = s.xs.length) (_hw : s.weights.length = s.xs.length)
    (hn : 2 ≤ s.xs.length) :
    interpolationError sabrVol s forward =
      Real.sqrt ((s.xs.length : ℝ) *
        ((s.xs.zip (s.ys.zip s.weights)).map (fun p =>
          p.2.2 * (valueRaw sabrVol s forward p.1 - p.2.1) ^ 2)).sum /
        ((s.xs.length : ℝ) - 1)) := by
  delta interpolationError interpolationSquaredError
  rw [foldl_add_sum, zero_add]
  have hfun : (fun p : ℝ × ℝ × ℝ =>
      (valueRaw sabrVol s forward p.1 - p.2.1) *
        (valueRaw sabrVol s forward p.1 - p.2.1) * p.2.2) =
      fun p : ℝ × ℝ × ℝ => p.2.2 * (valueRaw sabrVol s forward p.1 - p.2.1) ^ 2 := by
    funext p
    ring
  rw [hfun, Nat.cast_sub (by omega : 1 ≤ s.xs.length), Nat.cast_one]

/-- Claim C6 witness: the RMS formula evaluated on the concrete two-point
state `w2state`. -/
theorem c6_witness :
    interpolationError (fun _ _ _ _ _ _ _ => 0) w2state 1 =
      Real.sqrt ((w2state.xs.length : ℝ) *
        ((w2state.xs.zip (w2state.ys.zip w2state.weights)).map (fun p =>
          p.2.2 * (valueRaw (fun _ _ _ _ _ _ _ => 0) w2state 1 p.1 - p.2.1) ^ 2)).sum /
        ((w2state.xs.length : ℝ) - 1)) :=
  c6_rms_error (fun _ _ _ _ _ _ _ => 0) w2state 1 rfl rfl (Nat.le_refl 2)

/-- Claim C9: every parameter among alpha, beta, nu, rho supplied as Null
gets the default guess (alpha = sqrt 0.2, beta = 0.5, nu = sqrt 0.4,
rho = 0) and is forced free: its fixed flag is false even when the caller
passed the corresponding isFixed flag as true. -/
theorem c9_null_defaults (t : ℝ) (alpha? beta? nu? rho? : Option ℝ)
    (fa fb fn fr : Bool) (xs ys : List ℝ) (vw : Bool) (h : SABRState)
    (hmk : mkSABRCoeffHolder t alpha? beta? nu? rho? fa fb fn fr xs ys vw =
      Except.ok h) :
    (alpha? = Option.none → h.alpha = Real.sqrt 0.2 ∧ h.alphaIsFixed = false) ∧
    (beta? = Option.none → h.beta = 0.5 ∧ h.betaIsFixed = false) ∧
    (nu? = Option.none → h.nu = Real.sqrt 0.4 ∧ h.nuIsFixed = false) ∧
    (rho? = Option.none → h.rho = 0 ∧ h.rhoIsFixed = false) := by
  delta mkSABRCoeffHolder at hmk
  split at hmk
  · split at hmk
    · rw [Except.ok.injEq] at hmk
      subst hmk
      refine ⟨fun hnil => ?_, fun hnil => ?_, fun hnil => ?_, fun hnil => ?_⟩ <;>
        subst hnil <;> exact ⟨rfl, rfl⟩
    · exact absurd hmk (by simp)
  · exact absurd hmk (by simp)

/-- Constructing with every parameter Null (and every fixed flag passed as
true) succeeds and yields the default-holder state with all parameters
free. -/
theorem mk_default_eval :
    mkSABRCoeffHolder 1 Option.none Option.none Option.none Option.none
      true true true true [] [] false = Except.ok defaultHolder := by
  have hval : validateSabrParameters ((Option.none : Option ℝ).getD (Real.sqrt 0.2))
      ((Option.none : Option ℝ).getD 0.5)
      ((Option.none : Option ℝ).getD (Real.sqrt 0.4))
      ((Option.none : Option ℝ).getD 0) :=
    ⟨Real.sqrt_pos.mpr (show (0 : ℝ) < 0.2 by norm_num),
      ⟨show (0 : ℝ) ≤ 0.5 by norm_num, show (0.5 : ℝ) ≤ 1 by norm_num⟩,
      Real.sqrt_nonneg _,
      show (-1 : ℝ) < 0 by norm_num, show (0 : ℝ) < 1 by norm_num⟩
  delta mkSABRCoeffHolder
  rw [if_pos (show (0 : ℝ) < 1 by norm_num), if_pos hval]
  rfl

/-- Claim C9 witness: the defaults and forced-free flags on the concrete
all-Null construction (with all isFixed flags passed as true). -/
theorem c9_witness :
    defaultHolder.alpha = Real.sqrt 0.2 ∧ defaultHolder.alphaIsFixed = false ∧
    defaultHolder.beta = 0.5 ∧ defaultHolder.betaIsFixed = false ∧
    defaultHolder.nu = Real.sqrt 0.4 ∧ defaultHolder.nuIsFixed = false ∧
    defaultHolder.rho = 0 ∧ defaultHolder.rhoIsFixed = false := by
  obtain ⟨h1, h2, h3, h4⟩ := c9_null_defaults 1 Option.none Option.none
    Option.none Option.none true true true true [] [] false defaultHolder
    mk_default_eval
  obtain ⟨h1a, h1b⟩ := h1 rfl
  obtain ⟨h2a, h2b⟩ := h2 rfl
  obtain ⟨h3a, h3b⟩ := h3 rfl
  obtain ⟨h4a, h4b⟩ := h4 rfl
  exact ⟨h1a, h1b, h2a, h2b, h3a, h3b, h4a, h4b⟩

/-- Claim C10: construction fails not only when t ≤ 0 but also whenever the
initial (or defaulted) parameters violate the (spec-modelled) external
validity check; on successful construction the stored initial parameters
pass that check. -/
theorem c10_construction_validation (t : ℝ) (alpha? beta? nu? rho? : Option ℝ)
    (fa fb fn fr : Bool) (xs ys : List ℝ) (vw : Bool) :
    (¬ (0 < t ∧ validateSabrParameters (alpha?.getD (Real.sqrt 0.2))
        (beta?.getD 0.5) (nu?.getD (Real.sqrt 0.4)) (rho?.getD 0)) →
      ∃ e, mkSABRCoeffHolder t alpha? beta? nu? rho? fa fb fn fr xs ys vw =
        Except.error e) ∧
    ∀ h, mkSABRCoeffHolder t alpha? beta? nu? rho? fa fb fn fr xs ys vw =
        Except.ok h →
      validateSabrParameters h.alpha h.beta h.nu h.rho := by
  constructor
  · intro hnot
    delta mkSABRCoeffHolder
    by_cases h0 : 0 < t
    · rw [if_pos h0, if_neg (fun hv => hnot ⟨h0, hv⟩)]
      exact ⟨_, rfl⟩
    · rw [if_neg h0]
      exact ⟨_, rfl⟩
  · intro h hmk
    delta mkSABRCoeffHolder at hmk
    split at hmk
    · split at hmk
      case isTrue hv =>
        rw [Except.ok.injEq] at hmk
        subst hmk
        exact hv
      case isFalse hv => exact absurd hmk (by simp)
    · exact absurd hmk (by simp)

/-- Claim C10 witness: construction with alpha = −1 fails although t = 1 > 0,
and the successful all-Null construction stores parameters passing the
validity check. -/
theorem c10_witness :
    (∃ e, mkSABRCoeffHolder 1 (some (-1)) Option.none Option.none Option.none
      true true true true [] [] false = Except.error e) ∧
    validateSabrParameters defaultHolder.alpha defaultHolder.beta
      defaultHolder.nu defaultHolder.rho :=
  ⟨(c10_construction_validation 1 (some (-1)) Option.none Option.none
      Option.none true true true true [] [] false).1
      (by
        intro hc
        have hneg := hc.2.1
        rw [Option.getD_some] at hneg
        exact absurd hneg (by norm_num)),
   (c10_construction_validation 1 Option.none Option.none Option.none
      Option.none true true true true [] [] false).2 defaultHolder
     mk_default_eval⟩

end QLSabr
